import Mathlib

/-!
Verification of an edge API gateway (an Express/TypeScript service) against
its natural-language specification.  The development shallowly embeds the
relevant parts of the source:

* the token cache, its periodic sweep and the authentication middleware
  (src/middleware/auth.middleware.ts);
* the rate-limit wiring, key generator and denial handler (src/app.ts);
* the proxy request hook, the two route tables and their 404 catch-alls
  (src/routes/proxy.routes.ts, both variants present in the repository);
* startup configuration validation (src/config/config.ts).

Timestamps are milliseconds as natural numbers.  JavaScript values that can
be undefined are modelled with Option; JavaScript string truthiness (empty
string is falsy) is modelled explicitly where the source relies on it.
-/

namespace Gateway

/-- A validated identity as produced by the upstream identity authority
(interface UserInfo in auth.middleware.ts). -/
structure UserInfo where
  id : String
  email : String
  role : String
  deriving DecidableEq, Repr

/-- A token-cache entry (interface TokenCacheEntry): the cached user and an
absolute expiry timestamp in milliseconds.  The user field is an Option
because a JavaScript object field can hold undefined and the source never
checks it before dereferencing. -/
structure TokenCacheEntry where
  user : Option UserInfo
  expiry : Nat
  deriving DecidableEq, Repr

/-- The token cache (const tokenCache = new Map<string, TokenCacheEntry>())
as an association list keyed by the token string; a Map holds at most one
entry per key, which cacheSet maintains. -/
abbrev TokenCache := List (String × TokenCacheEntry)

/-- Map.prototype.set: update the existing entry for the key in place, or
append a new one. -/
def cacheSet (c : TokenCache) (tok : String) (e : TokenCacheEntry) : TokenCache :=
  match c with
  | [] => [(tok, e)]
  | (k, v) :: rest =>
    if k = tok then (k, e) :: rest else (k, v) :: cacheSet rest tok e

/-- Map.prototype.get: the entry stored for the key, if any. -/
def cacheLookup (c : TokenCache) (tok : String) : Option TokenCacheEntry :=
  match c with
  | [] => none
  | (k, v) :: rest => if k = tok then some v else cacheLookup rest tok

/-- The lazy-invalidation read of auth.middleware.ts lines 91-92:
tokenCache.get(token) followed by the guard cached.expiry > Date.now().
An entry is returned only when now < expiry. -/
def cacheGetValid (c : TokenCache) (tok : String) (now : Nat) :
    Option TokenCacheEntry :=
  match cacheLookup c tok with
  | some e => if now < e.expiry then some e else none
  | none => none

/-- The periodic sweep (the setInterval body, auth.middleware.ts lines
32-46): deletes every entry with entry.expiry < now (strict comparison in
the source) and counts the deletions. -/
def sweepCache (c : TokenCache) (now : Nat) : TokenCache × Nat :=
  (c.filter fun p => now ≤ p.2.expiry,
   (c.filter fun p => p.2.expiry < now).length)

/-- Everything clearTokenCache (auth.middleware.ts lines 223-227) does: the
cache afterwards, the entry count it logs, and the value it returns to its
caller.  The function is declared void, so the caller receives no value. -/
structure ClearOutcome where
  cache : TokenCache
  loggedRemoved : Nat
  returned : Option Nat
  deriving DecidableEq, Repr

/-- clearTokenCache(): reads tokenCache.size, clears the map, logs the size;
returns nothing (void). -/
def clearTokenCache (c : TokenCache) : ClearOutcome :=
  { cache := [], loggedRemoved := c.length, returned := none }

/-- String.prototype.startsWith, computed on the character lists (the
built-in String.startsWith is byte-position based and is avoided only so
that concrete instances evaluate inside the kernel). -/
def strStartsWith (s pre : String) : Bool :=
  pre.data.isPrefixOf s.data

/-- Drop the first n characters of a string. -/
def strDrop (s : String) (n : Nat) : String :=
  ⟨s.data.drop n⟩

/-- JavaScript x || y on an optional string: y when x is undefined or the
empty string (both falsy), x otherwise. -/
def jsOrString (x : Option String) (y : String) : String :=
  match x with
  | some s => if s = "" then y else s
  | none => y

/-- The outcome of the axios call to the identity authority, as the
middleware observes it. -/
inductive UpstreamResult where
  /-- A 2xx response whose JSON body carries valid, user? and error?. -/
  | ok (valid : Bool) (user : Option UserInfo) (error : Option String)
  /-- An axios error with its optional error code and the optional HTTP
  status of an attached response. -/
  | axiosFailure (code : Option String) (status : Option Nat)
  /-- Any exception that is not an axios error. -/
  | otherFailure
  deriving DecidableEq, Repr

/-- A terminal JSON reply: status code plus the error and message fields of
the body. -/
structure HttpReply where
  status : Nat
  error : String
  message : String
  deriving DecidableEq, Repr

/-- Everything one invocation of the authentication middleware does: the
terminal reply if it sent one, whether it called next(), the req.user it
attached, the identity headers it set (in order), the cache afterwards, and
whether it called the upstream authority. -/
structure AuthOutcome where
  reply : Option HttpReply
  nextCalled : Bool
  user : Option UserInfo
  headersSet : List (String × String)
  cache : TokenCache
  upstreamCalled : Bool
  deriving DecidableEq, Repr

/-- The cache TTL: 5 * 60 * 1000 ms (auth.middleware.ts line 139). -/
def bearerTtlMs : Nat := 5 * 60 * 1000

def unauthorizedReply (msg : String) : HttpReply :=
  ⟨401, "Unauthorized", msg⟩

/-- The 500 reply of the middleware's generic catch branch. -/
def unexpectedAuthReply : HttpReply :=
  ⟨500, "Internal Server Error",
   "An unexpected error occurred during authentication"⟩

/-- auth.middleware.ts lines 109-219: what happens after a cache miss, as a
function of the observed upstream outcome.  On valid:true the cache is
written (before user.id is read, so the write happens even when the body
has no user and the subsequent dereference throws into the catch branch);
on valid:false a 401 carries the body's error string when that string is
truthy; the catch branch classifies axios failures by code and status in
source order (ECONNREFUSED, then response status 401, then
ETIMEDOUT/ECONNABORTED) and falls through to a generic 500. -/
def handleUpstream (secret : String) (cache : TokenCache) (now : Nat)
    (token : String) (result : UpstreamResult) : AuthOutcome :=
  match result with
  | .ok valid userOpt errOpt =>
    if valid then
      let cache1 := cacheSet cache token ⟨userOpt, now + bearerTtlMs⟩
      match userOpt with
      | some u =>
        { reply := none, nextCalled := true, user := some u,
          headersSet := [("x-user-id", u.id), ("x-user-email", u.email),
                         ("x-user-role", u.role), ("x-gateway-secret", secret)],
          cache := cache1, upstreamCalled := true }
      | none =>
        -- user.id on undefined throws; caught as a non-axios error
        { reply := some unexpectedAuthReply, nextCalled := false,
          user := none, headersSet := [], cache := cache1,
          upstreamCalled := true }
    else
      { reply := some (unauthorizedReply
          (jsOrString errOpt "Invalid or expired token")),
        nextCalled := false, user := none, headersSet := [],
        cache := cache, upstreamCalled := true }
  | .axiosFailure code status =>
    if code = some "ECONNREFUSED" then
      { reply := some ⟨503, "Service Unavailable",
          "Authentication service is temporarily unavailable. Please try again later."⟩,
        nextCalled := false, user := none, headersSet := [],
        cache := cache, upstreamCalled := true }
    else if status = some 401 then
      { reply := some (unauthorizedReply "Invalid or expired token"),
        nextCalled := false, user := none, headersSet := [],
        cache := cache, upstreamCalled := true }
    else if code = some "ETIMEDOUT" ∨ code = some "ECONNABORTED" then
      { reply := some ⟨504, "Gateway Timeout",
          "Authentication service took too long to respond"⟩,
        nextCalled := false, user := none, headersSet := [],
        cache := cache, upstreamCalled := true }
    else
      { reply := some unexpectedAuthReply, nextCalled := false,
        user := none, headersSet := [], cache := cache,
        upstreamCalled := true }
  | .otherFailure =>
    { reply := some unexpectedAuthReply, nextCalled := false,
      user := none, headersSet := [], cache := cache,
      upstreamCalled := true }

/-- authMiddleware (auth.middleware.ts lines 48-220).  The upstream call is
represented by the result it would produce; upstreamCalled records whether
that call is actually made.  The token is the header with the prefix
removed: the source uses authHeader.replace with the literal pattern, which
replaces the first occurrence, and the startsWith guard places that
occurrence at index 0, so it equals dropping the 7-character prefix. -/
def authMiddleware (secret : String) (cache : TokenCache) (now : Nat)
    (authHeader : Option String) (result : UpstreamResult) : AuthOutcome :=
  match authHeader with
  | none =>
    { reply := some (unauthorizedReply
        "No authorization token provided. Please include Authorization header with Bearer token."),
      nextCalled := false, user := none, headersSet := [],
      cache := cache, upstreamCalled := false }
  | some h =>
    if strStartsWith h "Bearer " then
      let token := strDrop h 7
      match cacheGetValid cache token now with
      | some e =>
        match e.user with
        | some u =>
          { reply := none, nextCalled := true, user := some u,
            headersSet := [("x-user-id", u.id), ("x-user-email", u.email),
                           ("x-user-role", u.role), ("x-gateway-secret", secret)],
            cache := cache, upstreamCalled := false }
        | none =>
          -- cached.user.id on undefined throws; caught as a non-axios error
          { reply := some unexpectedAuthReply, nextCalled := false,
            user := none, headersSet := [], cache := cache,
            upstreamCalled := false }
      | none => handleUpstream secret cache now token result
    else
      { reply := some (unauthorizedReply
          "Authorization header must be in format: Bearer <token>"),
        nextCalled := false, user := none, headersSet := [],
        cache := cache, upstreamCalled := false }

/-! ## Admission control (src/app.ts) -/

/-- The rate-limit key generator (app.ts lines 68-71):
req.user?.id || req.ip || "unknown".  JavaScript || skips empty strings. -/
def keyGenerator (user : Option UserInfo) (ip : Option String) : String :=
  jsOrString (user.map UserInfo.id) (jsOrString ip "unknown")

/-- The middleware stages of App, in the order its constructor registers
them (app.ts lines 13-20 and the bodies of the initialize methods).  The
mounted routes stage holds the health endpoint, the proxies and the
authentication middleware. -/
inductive Stage where
  | helmetHeaders
  | corsPolicy
  | rateLimiter
  | jsonBodyParse
  | urlencodedParse
  | requestLogging
  | mountedRoutes
  | errorHandling
  deriving DecidableEq, BEq, Repr

def middlewarePipeline : List Stage :=
  [.helmetHeaders, .corsPolicy, .rateLimiter, .jsonBodyParse,
   .urlencodedParse, .requestLogging, .mountedRoutes, .errorHandling]

/-- Per-key fixed-window state: requests counted so far and the window's
start time. -/
structure RateState where
  count : Nat
  windowStart : Nat
  deriving DecidableEq, Repr

inductive AdmitDecision where
  | allow
  | deny (status : Nat) (retryAfterSeconds : Nat)
  deriving DecidableEq, Repr

/-- Math.ceil(a / b) on naturals. -/
def ceilDiv (a b : Nat) : Nat := (a + b - 1) / b

/-- Modelled from the spec: the fixed-window counter of the admission
controller is the express-rate-limit library, which is not part of the
repository; the spec describes it as reset-on-elapsed-window then
increment-and-compare.  The denial response (status 429 and
retryAfter = Math.ceil(windowMs / 1000)) is the handler in src/app.ts
lines 73-85. -/
def admitOne (windowMs maxRequests : Nat) (st : Option RateState) (now : Nat) :
    RateState × AdmitDecision :=
  let st0 : RateState :=
    match st with
    | some s => if windowMs ≤ now - s.windowStart then ⟨0, now⟩ else s
    | none => ⟨0, now⟩
  let st1 : RateState := ⟨st0.count + 1, st0.windowStart⟩
  if maxRequests < st1.count then
    (st1, .deny 429 (ceilDiv windowMs 1000))
  else
    (st1, .allow)

/-- Run a sequence of calls for one key at the given times. -/
def admitRun (windowMs maxRequests : Nat) :
    Option RateState → List Nat → List AdmitDecision
  | _, [] => []
  | st, t :: ts =>
    let r := admitOne windowMs maxRequests st t
    r.2 :: admitRun windowMs maxRequests (some r.1) ts

/-! ## JSON bodies and the proxy request hook (proxy.routes.ts, first
variant) -/

/-- A JSON value as express.json() produces it. -/
inductive Json where
  | null
  | boolean (b : Bool)
  | number (n : Int)
  | strVal (s : String)
  | arrVal (elems : List Json)
  | objVal (fields : List (String × Json))

/-- JSON.stringify string escaping for the common characters (quote,
backslash, newline, tab, carriage return; rarer control-character escapes
are elided — no claim depends on them). -/
def escapeChar (c : Char) : String :=
  if c = '\"' then "\\\""
  else if c = '\\' then "\\\\"
  else if c = '\n' then "\\n"
  else if c = '\t' then "\\t"
  else if c = '\r' then "\\r"
  else String.singleton c

def quoteJson (s : String) : String :=
  "\"" ++ String.join (s.data.map escapeChar) ++ "\""

mutual

/-- JSON.stringify. -/
def stringify : Json → String
  | .null => "null"
  | .boolean true => "true"
  | .boolean false => "false"
  | .number n => toString n
  | .strVal s => quoteJson s
  | .arrVal xs => "[" ++ stringifySeq xs ++ "]"
  | .objVal fs => "\x7b" ++ stringifyFields fs ++ "\x7d"

def stringifySeq : List Json → String
  | [] => ""
  | [x] => stringify x
  | x :: y :: rest => stringify x ++ "," ++ stringifySeq (y :: rest)

def stringifyFields : List (String × Json) → String
  | [] => ""
  | [p] => quoteJson p.1 ++ ":" ++ stringify p.2
  | p :: q :: rest =>
    quoteJson p.1 ++ ":" ++ stringify p.2 ++ "," ++ stringifyFields (q :: rest)

end

/-- JavaScript truthiness of a JSON value. -/
def jsTruthy : Json → Bool
  | .null => false
  | .boolean b => b
  | .number n => n != 0
  | .strVal s => s != ""
  | .arrVal _ => true
  | .objVal _ => true

/-- Object.keys(v).length: own enumerable keys — object fields, array
indices, string character indices; none for primitives. -/
def jsKeyCount : Json → Nat
  | .objVal fs => fs.length
  | .arrVal xs => xs.length
  | .strVal s => s.length
  | _ => 0

/-- What the onProxyReq hook does to the outbound request: the headers it
sets and the bytes it writes. -/
structure ProxyReqEffect where
  contentType : Option String
  contentLength : Option Nat
  written : Option String
  deriving DecidableEq, Repr

/-- The onProxyReq hook of createProxyConfig (proxy.routes.ts lines 23-39,
first variant): when req.body is truthy and Object.keys(req.body).length >
0, re-serialize the body, set Content-Type and Content-Length
(Buffer.byteLength of the serialized string, i.e. its UTF-8 byte count) and
write the serialized string; otherwise leave the request untouched. -/
def onProxyReq (body : Option Json) : ProxyReqEffect :=
  match body with
  | some j =>
    if jsTruthy j ∧ 0 < jsKeyCount j then
      let bodyData := stringify j
      ⟨some "application/json", some bodyData.utf8ByteSize, some bodyData⟩
    else ⟨none, none, none⟩
  | none => ⟨none, none, none⟩

/-! ## Route tables and 404 catch-alls (proxy.routes.ts, both variants) -/

/-- An express mount at a path matches the path itself or any extension of
it across a slash. -/
def mountMatches (mount : String) (path : String) : Bool :=
  path = mount ∨ strStartsWith path (mount ++ "/")

/-- First routes file: GET /health, mounts /api/auth and /api/v1. -/
def routeMatchedV1 (method path : String) : Bool :=
  (method = "GET" ∧ path = "/health") ∨ mountMatches "/api/auth" path
    ∨ mountMatches "/api/v1" path

/-- Second routes file: GET /health, mounts /auth and /ecommerce. -/
def routeMatchedV2 (method path : String) : Bool :=
  (method = "GET" ∧ path = "/health") ∨ mountMatches "/auth" path
    ∨ mountMatches "/ecommerce" path

/-- The JSON body a catch-all sends, with its status. -/
structure NotFoundBody where
  status : Nat
  error : String
  message : String
  availableRoutes : Option (List String)
  deriving DecidableEq, Repr

/-- The static route list of the first variant's catch-all (proxy.routes.ts
lines 114-122). -/
def knownRoutesList : List String :=
  ["POST /auth/login", "POST /auth/register", "GET /api/compromisos",
   "POST /api/compromisos", "GET /api/facturas", "POST /api/facturas"]

/-- The first variant's catch-all response (proxy.routes.ts lines 104-124). -/
def catchAllV1 (method originalUrl : String) : NotFoundBody :=
  ⟨404, "Not Found",
   "The requested endpoint " ++ method ++ " " ++ originalUrl ++ " does not exist.",
   some knownRoutesList⟩

/-- The second variant's catch-all response (lines 180-191 of the combined
routes sources): no route list in the body. -/
def catchAllV2 (method originalUrl : String) : NotFoundBody :=
  ⟨404, "Not Found",
   "El endpoint " ++ method ++ " " ++ originalUrl ++ " no existe", none⟩

inductive RouteOutcome where
  | forwarded
  | notFound (body : NotFoundBody)
  deriving DecidableEq, Repr

/-- Modelled from the spec for the dispatch itself (the express Router is
library code, not in the repository): the first matching mount wins and an
unmatched path falls to the catch-all.  The tables and catch-all bodies are
from proxy.routes.ts. -/
def routerV1 (method path : String) : RouteOutcome :=
  if routeMatchedV1 method path then .forwarded
  else .notFound (catchAllV1 method path)

def routerV2 (method path : String) : RouteOutcome :=
  if routeMatchedV2 method path then .forwarded
  else .notFound (catchAllV2 method path)

/-! ## Startup configuration validation (src/config/config.ts) -/

/-- The process environment. -/
abbrev Env : Type := String → Option String

/-- The required variables (config.ts lines 165-170).  Note the list:
ECOMMERCE_SERVICE_URL is not in it. -/
def requiredVars : List String :=
  ["AUTH_SERVICE_URL", "GATEWAY_SECRET", "PORT", "NODE_ENV"]

/-- !process.env[v]: undefined or the empty string count as missing. -/
def envMissing (env : Env) (v : String) : Bool :=
  match env v with
  | none => true
  | some s => s = ""

inductive ConfigError where
  /-- The thrown Error whose message joins every missing required
  variable. -/
  | missingVars (vars : List String)
  /-- The thrown Error for an unparsable or out-of-range PORT. -/
  | invalidPort (raw : Option String)
  deriving DecidableEq, Repr

structure GatewayConfig where
  port : Nat
  nodeEnv : String
  authServiceUrl : String
  /-- Read with a non-null assertion but never validated, so it can be
  absent. -/
  ecommerceServiceUrl : Option String
  gatewaySecret : String
  rateLimitWindowMs : Nat
  rateLimitMaxRequests : Nat
  allowedOrigins : List String
  logLevel : String
  deriving DecidableEq, Repr

/-- parseInt(s, 10) on the values that occur here: the leading decimal
digits of the string, NaN (none) when there are none.  Leading whitespace
and an explicit sign are elided — no claim depends on them. -/
def jsParseInt (s : String) : Option Nat :=
  let ds := s.data.takeWhile Char.isDigit
  if ds = [] then none
  else some (ds.foldl (fun acc c => acc * 10 + (c.toNat - 48)) 0)

/-- validateConfig (config.ts lines 163-214): collect every missing
required variable and fail once with the whole list; then parse and
range-check PORT; then build the configuration object.  parseInt results
for the optional rate-limit variables are defaulted to 0 where the source
would store NaN unchecked — no claim depends on them. -/
def validateConfig (env : Env) : Except ConfigError GatewayConfig :=
  let missing := requiredVars.filter (envMissing env)
  if missing ≠ [] then
    .error (.missingVars missing)
  else
    match jsParseInt (jsOrString (env "PORT") "3000") with
    | none => .error (.invalidPort (env "PORT"))
    | some p =>
      if p < 1 ∨ 65535 < p then .error (.invalidPort (env "PORT"))
      else
        .ok
          { port := p
            nodeEnv := jsOrString (env "NODE_ENV") "development"
            authServiceUrl := (env "AUTH_SERVICE_URL").getD ""
            ecommerceServiceUrl := env "ECOMMERCE_SERVICE_URL"
            gatewaySecret := (env "GATEWAY_SECRET").getD ""
            rateLimitWindowMs :=
              (jsParseInt (jsOrString (env "RATE_LIMIT_WINDOW_MS") "900000")).getD 0
            rateLimitMaxRequests :=
              (jsParseInt (jsOrString (env "RATE_LIMIT_MAX_REQUESTS") "100")).getD 0
            allowedOrigins :=
              match env "ALLOWED_ORIGINS" with
              | some s => s.splitOn ","
              | none => ["http://localhost:3000"]
            logLevel := jsOrString (env "LOG_LEVEL") "info" }

/-- Whether an Except value is ok. -/
def exceptOk {ε α : Type} : Except ε α → Bool
  | .ok _ => true
  | .error _ => false

/-! ## Concrete instances used by counterexamples and witnesses -/

/-- A cache whose single entry expires exactly at time 100. -/
def boundaryCache : TokenCache := [("tok", ⟨some ⟨"1", "e@x", "user"⟩, 100⟩)]

/-- A cache holding one stale entry for the token tkn. -/
def staleCache : TokenCache := [("tkn", ⟨some ⟨"9", "old@x", "user"⟩, 2⟩)]

/-- A cache with exactly one entry. -/
def oneEntryCache : TokenCache := [("t", ⟨some ⟨"1", "e@x", "user"⟩, 9⟩)]

def c1User : UserInfo := ⟨"42", "a@b.c", "admin"⟩

/-- An identity whose id is the empty string (falsy in JavaScript). -/
def emptyIdUser : UserInfo := ⟨"", "u@example.com", "admin"⟩

def proxyBodyExample : Json := .objVal [("a", .number 1)]

/-- An environment defining the four required variables but not
ECOMMERCE_SERVICE_URL. -/
def envNoEcommerce : Env := fun v =>
  if v = "AUTH_SERVICE_URL" then some "http://localhost:3001"
  else if v = "GATEWAY_SECRET" then some "sup3rs3cret"
  else if v = "PORT" then some "3000"
  else if v = "NODE_ENV" then some "production"
  else none

/-- An environment in which two of the required variables are absent. -/
def envOnlyPortEnv : Env := fun v =>
  if v = "PORT" then some "3000"
  else if v = "NODE_ENV" then some "development"
  else none

/-! ## Helper lemmas -/

theorem cacheLookup_cacheSet_self (c : TokenCache) (tok : String)
    (e : TokenCacheEntry) : cacheLookup (cacheSet c tok e) tok = some e := by
  induction c with
  | nil => simp [cacheSet, cacheLookup]
  | cons p rest ih =>
    by_cases hk : p.1 = tok
    · simp [cacheSet, cacheLookup, hk]
    · simp [cacheSet, cacheLookup, hk, ih]

/-! ## C1: cache write-through and cache hit within the TTL -/

/-- C1: a successful upstream validation passes the request onward and
writes the identity into the token cache under the raw token with the
5-minute TTL, overwriting any stale entry; a second validation of the same
credential while the TTL has not elapsed makes no upstream call, returns
the same identity, passes the request onward and leaves the cache
unchanged. -/
theorem validated_token_cached_and_reused
    (secret : String) (cache : TokenCache) (t0 t1 : Nat) (h : String)
    (u : UserInfo) (errOpt : Option String) (r2 : UpstreamResult)
    (hb : strStartsWith h "Bearer " = true)
    (hmiss : cacheGetValid cache (strDrop h 7) t0 = none)
    (hfresh : t1 < t0 + bearerTtlMs) :
    (authMiddleware secret cache t0 (some h) (.ok true (some u) errOpt)).nextCalled = true
    ∧ cacheLookup
        (authMiddleware secret cache t0 (some h) (.ok true (some u) errOpt)).cache
        (strDrop h 7) = some ⟨some u, t0 + bearerTtlMs⟩
    ∧ (authMiddleware secret
        (authMiddleware secret cache t0 (some h) (.ok true (some u) errOpt)).cache
        t1 (some h) r2).upstreamCalled = false
    ∧ (authMiddleware secret
        (authMiddleware secret cache t0 (some h) (.ok true (some u) errOpt)).cache
        t1 (some h) r2).user = some u
    ∧ (authMiddleware secret
        (authMiddleware secret cache t0 (some h) (.ok true (some u) errOpt)).cache
        t1 (some h) r2).nextCalled = true
    ∧ (authMiddleware secret
        (authMiddleware secret cache t0 (some h) (.ok true (some u) errOpt)).cache
        t1 (some h) r2).cache
      = (authMiddleware secret cache t0 (some h) (.ok true (some u) errOpt)).cache := by
  have h1 : authMiddleware secret cache t0 (some h) (.ok true (some u) errOpt)
      = { reply := none, nextCalled := true, user := some u,
          headersSet := [("x-user-id", u.id), ("x-user-email", u.email),
                         ("x-user-role", u.role), ("x-gateway-secret", secret)],
          cache := cacheSet cache (strDrop h 7) ⟨some u, t0 + bearerTtlMs⟩,
          upstreamCalled := true } := by
    simp [authMiddleware, hb, hmiss, handleUpstream]
  have h2 : cacheGetValid (cacheSet cache (strDrop h 7) ⟨some u, t0 + bearerTtlMs⟩)
      (strDrop h 7) t1 = some ⟨some u, t0 + bearerTtlMs⟩ := by
    simp [cacheGetValid, cacheLookup_cacheSet_self, hfresh]
  have h3 : authMiddleware secret
      (cacheSet cache (strDrop h 7) ⟨some u, t0 + bearerTtlMs⟩) t1 (some h) r2
      = { reply := none, nextCalled := true, user := some u,
          headersSet := [("x-user-id", u.id), ("x-user-email", u.email),
                         ("x-user-role", u.role), ("x-gateway-secret", secret)],
          cache := cacheSet cache (strDrop h 7) ⟨some u, t0 + bearerTtlMs⟩,
          upstreamCalled := false } := by
    simp [authMiddleware, hb, h2]
  rw [h1, h3]
  exact ⟨rfl, cacheLookup_cacheSet_self cache (strDrop h 7) ⟨some u, t0 + bearerTtlMs⟩,
         rfl, rfl, rfl, rfl⟩

/-- Witness for C1 at a concrete input: a stale entry for the token is
overwritten and the second call at time 10 reuses it. -/
theorem validated_token_cached_and_reused_witness :
    (authMiddleware "g" staleCache 5 (some "Bearer tkn")
        (.ok true (some c1User) none)).nextCalled = true
    ∧ cacheLookup
        (authMiddleware "g" staleCache 5 (some "Bearer tkn")
          (.ok true (some c1User) none)).cache
        (strDrop "Bearer tkn" 7) = some ⟨some c1User, 5 + bearerTtlMs⟩
    ∧ (authMiddleware "g"
        (authMiddleware "g" staleCache 5 (some "Bearer tkn")
          (.ok true (some c1User) none)).cache
        10 (some "Bearer tkn") .otherFailure).upstreamCalled = false
    ∧ (authMiddleware "g"
        (authMiddleware "g" staleCache 5 (some "Bearer tkn")
          (.ok true (some c1User) none)).cache
        10 (some "Bearer tkn") .otherFailure).user = some c1User
    ∧ (authMiddleware "g"
        (authMiddleware "g" staleCache 5 (some "Bearer tkn")
          (.ok true (some c1User) none)).cache
        10 (some "Bearer tkn") .otherFailure).nextCalled = true
    ∧ (authMiddleware "g"
        (authMiddleware "g" staleCache 5 (some "Bearer tkn")
          (.ok true (some c1User) none)).cache
        10 (some "Bearer tkn") .otherFailure).cache
      = (authMiddleware "g" staleCache 5 (some "Bearer tkn")
          (.ok true (some c1User) none)).cache :=
  validated_token_cached_and_reused "g" staleCache 5 10 "Bearer tkn" c1User
    none .otherFailure (by decide) (by decide) (by decide)

/-! ## C2: expiry semantics of lazy invalidation versus the sweep -/

/-- C2 counterexample: at now = 100 an entry with expiresAt = 100 is
already invisible to the lazy read, yet the sweep retains it, so the sweep
does not remove all entries with expiresAt ≤ now. -/
theorem sweep_keeps_boundary_entry_cex :
    cacheGetValid boundaryCache "tok" 100 = none
    ∧ cacheLookup (sweepCache boundaryCache 100).1 "tok"
        = some ⟨some ⟨"1", "e@x", "user"⟩, 100⟩
    ∧ (100 : Nat) ≤ 100 := by decide

/-- C2 amended: the lazy read never returns an entry with expiresAt ≤ now,
and sweep(now) removes exactly the entries with expiresAt < now (strict),
so the two disagree only on the boundary expiresAt = now, where the read
treats the entry as expired but the sweep retains it. -/
theorem expiry_semantics (cache : TokenCache) (tok : String) (now : Nat) :
    (∀ e, cacheGetValid cache tok now = some e → now < e.expiry)
    ∧ (∀ t e, (t, e) ∈ (sweepCache cache now).1 ↔ ((t, e) ∈ cache ∧ now ≤ e.expiry)) := by
  constructor
  · intro e he
    unfold cacheGetValid at he
    cases hl : cacheLookup cache tok with
    | none =>
      rw [hl] at he
      exact Option.noConfusion he
    | some e0 =>
      rw [hl] at he
      change (if now < e0.expiry then some e0 else none) = some e at he
      by_cases hlt : now < e0.expiry
      · rw [if_pos hlt] at he
        cases he
        exact hlt
      · rw [if_neg hlt] at he
        exact Option.noConfusion he
  · intro t e
    simp [sweepCache, List.mem_filter]

/-- Witness for C2 at a concrete input: an entry expiring at 5, read and
swept at time 3, is returned by the read and kept by the sweep. -/
theorem expiry_semantics_witness :
    (3 : Nat) < (TokenCacheEntry.mk (some ⟨"1", "e@x", "user"⟩) 5).expiry
    ∧ ("a", TokenCacheEntry.mk (some ⟨"1", "e@x", "user"⟩) 5)
        ∈ (sweepCache [("a", ⟨some ⟨"1", "e@x", "user"⟩, 5⟩)] 3).1 :=
  ⟨(expiry_semantics [("a", ⟨some ⟨"1", "e@x", "user"⟩, 5⟩)] "a" 3).1
      ⟨some ⟨"1", "e@x", "user"⟩, 5⟩ (by decide),
   ((expiry_semantics [("a", ⟨some ⟨"1", "e@x", "user"⟩, 5⟩)] "a" 3).2
      "a" ⟨some ⟨"1", "e@x", "user"⟩, 5⟩).mpr ⟨by decide, by decide⟩⟩

/-! ## C9: clearTokenCache -/

/-- C9 counterexample: clearTokenCache is void; on a cache with one entry
it logs 1 but returns no value, so it does not return the number of
entries removed. -/
theorem clear_returns_no_count_cex :
    (clearTokenCache oneEntryCache).loggedRemoved = 1
    ∧ (clearTokenCache oneEntryCache).returned ≠ some 1 := by decide

/-- C9 amended: clearTokenCache removes all entries and logs the count
removed, but returns no value to its caller. -/
theorem clear_cache_semantics (c : TokenCache) :
    (clearTokenCache c).cache = []
    ∧ (clearTokenCache c).loggedRemoved = c.length
    ∧ (clearTokenCache c).returned = none :=
  ⟨rfl, rfl, rfl⟩

/-! ## C10: next() implies identity and headers -/

/-- C10: whenever the authentication middleware passes the request onward,
on the cache-hit path and the fresh-validation path alike, req.user holds a
defined identity and exactly the four headers x-user-id, x-user-email,
x-user-role and x-gateway-secret are set from it and the configured
gateway secret. -/
theorem forward_only_with_identity_headers
    (secret : String) (cache : TokenCache) (now : Nat)
    (authHeader : Option String) (result : UpstreamResult)
    (hn : (authMiddleware secret cache now authHeader result).nextCalled = true) :
    ∃ u, (authMiddleware secret cache now authHeader result).user = some u
      ∧ (authMiddleware secret cache now authHeader result).headersSet
        = [("x-user-id", u.id), ("x-user-email", u.email),
           ("x-user-role", u.role), ("x-gateway-secret", secret)] := by
  rcases authHeader with _ | h
  · exact absurd hn (by simp [authMiddleware])
  · by_cases hb : strStartsWith h "Bearer "
    · simp only [authMiddleware, hb, if_true] at hn ⊢
      cases hc : cacheGetValid cache (strDrop h 7) now with
      | some e =>
        simp only [hc] at hn ⊢
        cases hu : e.user with
        | none =>
          simp only [hu] at hn
          exact absurd hn (by simp)
        | some u =>
          simp only [hu] at hn ⊢
          exact ⟨u, rfl, rfl⟩
      | none =>
        simp only [hc] at hn ⊢
        rcases result with ⟨valid, userOpt, errOpt⟩ | ⟨code, status⟩ | _
        · cases valid with
          | false => exact absurd hn (by simp [handleUpstream])
          | true =>
            cases userOpt with
            | none => exact absurd hn (by simp [handleUpstream])
            | some u => exact ⟨u, by simp [handleUpstream], by simp [handleUpstream]⟩
        · simp only [handleUpstream] at hn
          split at hn
          · exact absurd hn (by simp)
          · split at hn
            · exact absurd hn (by simp)
            · split at hn
              · exact absurd hn (by simp)
              · exact absurd hn (by simp)
        · exact absurd hn (by simp [handleUpstream])
    · simp only [authMiddleware, hb] at hn
      exact absurd hn (by simp)

/-- Witness for C10 at a concrete input: a fresh successful validation has
nextCalled = true, and the theorem produces the identity and the four
headers. -/
theorem forward_only_with_identity_headers_witness :
    ∃ u, (authMiddleware "g" [] 0 (some "Bearer t")
        (.ok true (some c1User) none)).user = some u
      ∧ (authMiddleware "g" [] 0 (some "Bearer t")
          (.ok true (some c1User) none)).headersSet
        = [("x-user-id", u.id), ("x-user-email", u.email),
           ("x-user-role", u.role), ("x-gateway-secret", "g")] :=
  forward_only_with_identity_headers "g" [] 0 (some "Bearer t")
    (.ok true (some c1User) none) (by decide)

/-! ## C3: admission-control key selection and pipeline position -/

/-- C3 counterexample: for a validated identity whose id is the empty
string (falsy in JavaScript), the || chain falls through to the client
address, so the admission key is not the identity's id. -/
theorem admission_key_empty_id_cex :
    keyGenerator (some emptyIdUser) (some "203.0.113.9") = "203.0.113.9"
    ∧ keyGenerator (some emptyIdUser) (some "203.0.113.9") ≠ emptyIdUser.id := by
  decide

/-- C3 amended: the admission key is the identity's id when the request
carries a validated identity with a non-empty id; otherwise the client
address when that is present and non-empty; otherwise the constant
unknown.  The rate limiter is registered before the mounted routes, which
hold both the credential validation and the liveness endpoint. -/
theorem admission_key_selection :
    (∀ (u : UserInfo) (ip : Option String), u.id ≠ "" →
        keyGenerator (some u) ip = u.id)
    ∧ (∀ (u : UserInfo) (s : String), u.id = "" → s ≠ "" →
        keyGenerator (some u) (some s) = s)
    ∧ (∀ s : String, s ≠ "" → keyGenerator none (some s) = s)
    ∧ keyGenerator none none = "unknown"
    ∧ middlewarePipeline.indexOf Stage.rateLimiter
        < middlewarePipeline.indexOf Stage.mountedRoutes := by
  refine ⟨?_, ?_, ?_, ?_, ?_⟩
  · intro u ip hu
    simp [keyGenerator, jsOrString, hu]
  · intro u s hu hs
    simp [keyGenerator, jsOrString, hu, hs]
  · intro s hs
    simp [keyGenerator, jsOrString, hs]
  · decide
  · decide

/-- Witness for C3 at concrete inputs: a non-empty id wins, an absent
identity falls back to the address. -/
theorem admission_key_selection_witness :
    keyGenerator (some c1User) (some "198.51.100.7") = c1User.id
    ∧ keyGenerator none (some "198.51.100.7") = "198.51.100.7" :=
  ⟨admission_key_selection.1 c1User (some "198.51.100.7") (by decide),
   admission_key_selection.2.2.1 "198.51.100.7" (by decide)⟩

/-! ## C4: denial status and Retry-After value -/

/-- C4 counterexample: with window 60000 ms and max 3, three calls at time
0 are admitted and the fourth at time 30000 is denied, but the denial
carries retryAfter 60 (the constant ceil(windowMs/1000)), not
ceil((windowStart + windowLength - now)/1000) = 30 as the claim states. -/
theorem admission_retry_after_cex :
    admitRun 60000 3 none [0, 0, 0, 30000]
      = [.allow, .allow, .allow, .deny 429 60]
    ∧ ceilDiv (0 + 60000 - 30000) 1000 = 30
    ∧ (60 : Nat) ≠ 30 := by decide

/-- C4 amended: every denial is HTTP 429 with retryAfterSeconds equal to
the constant ceil(windowMs/1000), independent of the window's progress;
with window = 60000 ms and max = 3, three calls for the same key are
admitted and the fourth in the same window is denied with a Retry-After of
60, which is at most 60. -/
theorem admission_denial_retry_after :
    (∀ (w m : Nat) (st : Option RateState) (now : Nat) (st' : RateState)
        (s r : Nat), admitOne w m st now = (st', .deny s r) →
        s = 429 ∧ r = ceilDiv w 1000)
    ∧ admitRun 60000 3 none [0, 0, 0, 30000]
        = [.allow, .allow, .allow, .deny 429 60]
    ∧ ceilDiv 60000 1000 ≤ 60 := by
  refine ⟨?_, by decide, by decide⟩
  intro w m st now st' s r hadm
  rcases st with _ | s0 <;>
    simp only [admitOne] at hadm <;>
    (repeat' split at hadm) <;>
    simp_all

/-- Witness for C4 at a concrete denial: a state with count 3 in a young
window is denied with status 429 and retryAfter ceil(60000/1000). -/
theorem admission_denial_retry_after_witness :
    ((429 : Nat) = 429 ∧ (60 : Nat) = ceilDiv 60000 1000)
    ∧ admitRun 60000 3 none [0, 0, 0, 30000]
        = [.allow, .allow, .allow, .deny 429 60] :=
  ⟨admission_denial_retry_after.1 60000 3 (some ⟨3, 0⟩) 30000 ⟨4, 0⟩ 429 60
      (by decide),
   admission_denial_retry_after.2.1⟩

/-! ## C5: classification of validation failures -/

/-- C5: after a cache miss, an upstream body with valid:false yields 401
carrying the authority's stated reason when one is stated; connection
refusal (ECONNREFUSED) yields 503; a timeout (ETIMEDOUT or ECONNABORTED,
with no response status) yields 504; HTTP 401 from the authority yields
401; a non-axios failure, an axios failure matching none of the above, and
a valid:true body missing its user all yield 500. -/
theorem auth_failure_classification (secret : String) (cache : TokenCache)
    (now : Nat) (token : String) :
    (∀ (u : Option UserInfo) (r : String), r ≠ "" →
      (handleUpstream secret cache now token (.ok false u (some r))).reply
        = some ⟨401, "Unauthorized", r⟩)
    ∧ (∀ st : Option Nat,
      (handleUpstream secret cache now token
          (.axiosFailure (some "ECONNREFUSED") st)).reply
        = some ⟨503, "Service Unavailable",
            "Authentication service is temporarily unavailable. Please try again later."⟩)
    ∧ (∀ c : Option String, (c = some "ETIMEDOUT" ∨ c = some "ECONNABORTED") →
      (handleUpstream secret cache now token (.axiosFailure c none)).reply
        = some ⟨504, "Gateway Timeout",
            "Authentication service took too long to respond"⟩)
    ∧ (∀ c : Option String, c ≠ some "ECONNREFUSED" →
      (handleUpstream secret cache now token (.axiosFailure c (some 401))).reply
        = some ⟨401, "Unauthorized", "Invalid or expired token"⟩)
    ∧ ((handleUpstream secret cache now token .otherFailure).reply
        = some unexpectedAuthReply)
    ∧ (∀ (c : Option String) (st : Option Nat), c ≠ some "ECONNREFUSED" →
        st ≠ some 401 → ¬(c = some "ETIMEDOUT" ∨ c = some "ECONNABORTED") →
      (handleUpstream secret cache now token (.axiosFailure c st)).reply
        = some unexpectedAuthReply)
    ∧ (∀ e : Option String,
      (handleUpstream secret cache now token (.ok true none e)).reply
        = some unexpectedAuthReply) := by
  refine ⟨?_, ?_, ?_, ?_, ?_, ?_, ?_⟩
  · intro u r hr
    simp [handleUpstream, jsOrString, unauthorizedReply, hr]
  · intro st
    simp [handleUpstream]
  · rintro c (rfl | rfl) <;> simp [handleUpstream]
  · intro c hc
    simp [handleUpstream, unauthorizedReply, hc]
  · simp [handleUpstream]
  · intro c st hc h401 htime
    simp [handleUpstream, hc, h401, htime]
  · intro e
    simp [handleUpstream]

/-- Witness for C5 at concrete inputs: one instance of each classified
failure. -/
theorem auth_failure_classification_witness :
    (handleUpstream "g" [] 0 "t" (.ok false none (some "expired"))).reply
      = some ⟨401, "Unauthorized", "expired"⟩
    ∧ (handleUpstream "g" [] 0 "t"
        (.axiosFailure (some "ECONNREFUSED") none)).reply
      = some ⟨503, "Service Unavailable",
          "Authentication service is temporarily unavailable. Please try again later."⟩
    ∧ (handleUpstream "g" [] 0 "t"
        (.axiosFailure (some "ECONNABORTED") none)).reply
      = some ⟨504, "Gateway Timeout",
          "Authentication service took too long to respond"⟩
    ∧ (handleUpstream "g" [] 0 "t" (.axiosFailure none (some 401))).reply
      = some ⟨401, "Unauthorized", "Invalid or expired token"⟩
    ∧ (handleUpstream "g" [] 0 "t" .otherFailure).reply
      = some unexpectedAuthReply
    ∧ (handleUpstream "g" [] 0 "t"
        (.axiosFailure (some "EHOSTUNREACH") (some 500))).reply
      = some unexpectedAuthReply :=
  ⟨(auth_failure_classification "g" [] 0 "t").1 none "expired" (by decide),
   (auth_failure_classification "g" [] 0 "t").2.1 none,
   (auth_failure_classification "g" [] 0 "t").2.2.1 (some "ECONNABORTED")
     (Or.inr rfl),
   (auth_failure_classification "g" [] 0 "t").2.2.2.1 none (by decide),
   (auth_failure_classification "g" [] 0 "t").2.2.2.2.1,
   (auth_failure_classification "g" [] 0 "t").2.2.2.2.2.1
     (some "EHOSTUNREACH") (some 500) (by decide) (by decide) (by decide)⟩

/-! ## C6: Content-Length of forwarded JSON bodies -/

/-- C6 counterexample: a request whose JSON body is the empty object
(2 serialized bytes) fails the guard Object.keys(body).length > 0, so the
hook neither re-serializes it nor sets Content-Length. -/
theorem content_length_empty_object_cex :
    (onProxyReq (some (Json.objVal []))).contentLength = none
    ∧ (stringify (Json.objVal [])).utf8ByteSize = 2 :=
  ⟨rfl, rfl⟩

/-- C6 amended: whenever the hook acts — that is, for a truthy JSON body
with at least one key — it writes the re-serialized body and sets
Content-Length to exactly its UTF-8 byte length, and in every case the
Content-Length it sets equals the byte length of the bytes it writes
(never stale); a body failing the guard (such as the empty object) is
forwarded without re-serialization. -/
theorem content_length_matches (body : Option Json) :
    ((onProxyReq body).contentLength
      = ((onProxyReq body).written).map String.utf8ByteSize)
    ∧ (∀ j, body = some j → jsTruthy j = true → 0 < jsKeyCount j →
        (onProxyReq body).written = some (stringify j)
        ∧ (onProxyReq body).contentLength = some ((stringify j).utf8ByteSize)) := by
  constructor
  · rcases body with _ | j
    · simp [onProxyReq]
    · by_cases hg : jsTruthy j = true ∧ 0 < jsKeyCount j
      · simp [onProxyReq, hg]
      · simp [onProxyReq, hg]
  · rintro j rfl ht hk
    simp [onProxyReq, ht, hk]

/-- Witness for C6 at a concrete input: a one-field object is written with
a matching Content-Length. -/
theorem content_length_matches_witness :
    (onProxyReq (some proxyBodyExample)).written = some (stringify proxyBodyExample)
    ∧ (onProxyReq (some proxyBodyExample)).contentLength
      = some ((stringify proxyBodyExample).utf8ByteSize) :=
  (content_length_matches (some proxyBodyExample)).2 proxyBodyExample rfl
    (by decide) (by decide)

/-! ## C7: 404 for unmatched paths -/

/-- C7 counterexample: in the second routes variant, a path matching no
rule gets a 404 whose body carries no route list at all, so the body does
not enumerate the known route patterns. -/
theorem route_not_found_no_list_cex :
    routerV2 "GET" "/nope"
      = .notFound ⟨404, "Not Found", "El endpoint GET /nope no existe", none⟩
    ∧ (catchAllV2 "GET" "/nope").availableRoutes = none := by decide

/-- C7 amended: a request matching no route rule receives status 404 in
both routes variants; the first variant's body enumerates the static list
of known route patterns, while the second variant's body carries no route
list. -/
theorem route_not_found_404 (m p : String) :
    (routeMatchedV1 m p = false →
      routerV1 m p = .notFound (catchAllV1 m p)
      ∧ (catchAllV1 m p).status = 404
      ∧ (catchAllV1 m p).availableRoutes = some knownRoutesList)
    ∧ (routeMatchedV2 m p = false →
      routerV2 m p = .notFound (catchAllV2 m p)
      ∧ (catchAllV2 m p).status = 404
      ∧ (catchAllV2 m p).availableRoutes = none) := by
  constructor
  · intro h1
    exact ⟨by simp [routerV1, h1], rfl, rfl⟩
  · intro h2
    exact ⟨by simp [routerV2, h2], rfl, rfl⟩

/-- Witness for C7 at a concrete unmatched path. -/
theorem route_not_found_404_witness :
    (routerV1 "GET" "/missing/path"
        = .notFound (catchAllV1 "GET" "/missing/path")
      ∧ (catchAllV1 "GET" "/missing/path").status = 404
      ∧ (catchAllV1 "GET" "/missing/path").availableRoutes = some knownRoutesList)
    ∧ (routerV2 "GET" "/missing/path"
        = .notFound (catchAllV2 "GET" "/missing/path")
      ∧ (catchAllV2 "GET" "/missing/path").status = 404
      ∧ (catchAllV2 "GET" "/missing/path").availableRoutes = none) :=
  ⟨(route_not_found_404 "GET" "/missing/path").1 (by decide),
   (route_not_found_404 "GET" "/missing/path").2 (by decide)⟩

/-! ## C8: startup configuration validation -/

/-- C8 counterexample: an environment defining only AUTH_SERVICE_URL,
GATEWAY_SECRET, PORT and NODE_ENV passes validateConfig even though the
business-service base URL (ECOMMERCE_SERVICE_URL) is absent, so startup
does not fail fast on it. -/
theorem config_accepts_missing_business_url_cex :
    exceptOk (validateConfig envNoEcommerce) = true
    ∧ envNoEcommerce "ECOMMERCE_SERVICE_URL" = none := by decide

/-- C8 amended: the required entries are exactly AUTH_SERVICE_URL,
GATEWAY_SECRET, PORT and NODE_ENV — the business-service base URL is not
among them — and when any of these are absent the single startup failure
enumerates every missing required entry. -/
theorem config_missing_enumeration :
    ("ECOMMERCE_SERVICE_URL" ∈ requiredVars → False)
    ∧ (∀ env : Env, requiredVars.filter (envMissing env) ≠ [] →
        validateConfig env
          = .error (.missingVars (requiredVars.filter (envMissing env))))
    ∧ (∀ (env : Env) (v : String), v ∈ requiredVars → envMissing env v = true →
        v ∈ requiredVars.filter (envMissing env)) := by
  refine ⟨by decide, ?_, ?_⟩
  · intro env hne
    simp [validateConfig, hne]
  · intro env v hv hm
    exact List.mem_filter.mpr ⟨hv, hm⟩

/-- Witness for C8 at a concrete environment missing two required entries:
the failure lists both, and the business URL is not required. -/
theorem config_missing_enumeration_witness :
    validateConfig envOnlyPortEnv
      = .error (.missingVars (requiredVars.filter (envMissing envOnlyPortEnv)))
    ∧ "GATEWAY_SECRET" ∈ requiredVars.filter (envMissing envOnlyPortEnv) :=
  ⟨config_missing_enumeration.2.1 envOnlyPortEnv (by decide),
   config_missing_enumeration.2.2 envOnlyPortEnv "GATEWAY_SECRET"
     (by decide) (by decide)⟩

end Gateway
